import Mathlib

/-!
Verification development for the CODERUSH genetic-assignment optimizer
(`src/core/algoritmo_genetico.py`).  Python floats are modelled as `ℚ`
(finite values; `NaN`/`inf`/non-numeric attribute values are folded into the
`Option` layers described below), Python `int()` truncation of positive
values as `Int.floor`, and Python exceptions as explicit error signals.
-/

namespace Coderush

/-- A Python attribute slot: `none` = the attribute is absent (`hasattr` is
false); `some none` = the attribute is present but not a finite number
(non-numeric, `NaN` or `inf`, so every `isinstance`/`isnan` guard rejects it);
`some (some q)` = the attribute is present with finite numeric value `q`. -/
def Attr : Type := Option (Option ℚ)

/-- Embeds `EvaluadorFitness._validar_valor`: a finite value is clamped to
`[0, 1]`; the `None`/`NaN`/`inf` branch that returns the default cannot arise
for a `ℚ` argument, so the default argument is kept only for fidelity to the
source signature. -/
def validarValor (v : ℚ) (_default : ℚ) : ℚ := max 0 (min 1 v)

/-- Participants as seen by the scoring kernel of `EvaluadorFitness`: a bag of
dynamically typed attributes (`attrs`) plus the three optional custom methods
the kernel probes with `hasattr`.  For a custom method, `none` = the method is
absent, `some none` = calling it raises or yields a non-numeric/`NaN` result,
`some (some q)` = it returns the finite number `q`. -/
structure Participante where
  attrs : String → Option (Option ℚ)
  customCompat : Option (Option ℚ)
  customProb : Option (Option ℚ)
  customTiempo : Option (Option ℚ)

/-- Problems as seen by the scoring kernel.  `dificultadAttr` is the first
present attribute of the `getattr` chain `nivel_dificultad` / `dificultad` /
`difficulty`, rendered by `str(...)`; `none` means the chain fell through to
the default `'medio'`. -/
structure Problema where
  dificultadAttr : Option String
  tiempo_limite : Option (Option ℚ)
  puntos_totales : Option (Option ℚ)
  puntos_base : Option (Option ℚ)
  multiplicador_dificultad : Option (Option ℚ)

/-- Attribute names probed by `_obtener_tasa_exito_participante`. -/
def posiblesNombresTasa : List String :=
  ["tasa_exito_historica", "tasa_exito", "success_rate", "rate_success",
   "porcentaje_exito", "exito_historico", "win_rate", "performance",
   "rendimiento", "skill_level", "nivel_habilidad"]

/-- The attribute walk of `_obtener_tasa_exito_participante`: the first present
finite numeric attribute is divided by 100 when above 1 and returned when the
result lies in `[0, 1]`; otherwise the walk continues. -/
def buscarTasa (p : Participante) : List String → Option ℚ
  | [] => none
  | n :: rest =>
    match p.attrs n with
    | some (some v) =>
      let v2 := if 1 < v then v / 100 else v
      if 0 ≤ v2 ∧ v2 ≤ 1 then some v2 else buscarTasa p rest
    | _ => buscarTasa p rest

/-- The per-category indicator walk of `_calcular_tasa_exito_estimada`: the
first present finite numeric attribute with value `≥ 0` is taken. -/
def buscarIndicador (p : Participante) : List String → Option ℚ
  | [] => none
  | n :: rest =>
    match p.attrs n with
    | some (some v) => if 0 ≤ v then some v else buscarIndicador p rest
    | _ => buscarIndicador p rest

/-- Embeds `_calcular_tasa_exito_estimada`: base 0.5 adjusted by the
experience / solved-problems / level indicators, clamped to `[0.1, 0.9]`; the
score category is collected but unused by the source, yet its presence selects
the computed branch.  Default 0.6 when no indicator is found. -/
def calcularTasaExitoEstimada (p : Participante) : ℚ :=
  let exp? := buscarIndicador p
    ["experiencia", "experience", "competencias_previas", "competencias", "años_experiencia"]
  let prob? := buscarIndicador p
    ["problemas_resueltos", "problems_solved", "problemas_resueltos_total", "ejercicios_completados"]
  let niv? := buscarIndicador p
    ["nivel", "level", "rank", "ranking", "skill_level", "nivel_habilidad"]
  let punt? := buscarIndicador p
    ["puntuacion_promedio", "score", "average_score", "puntos_promedio"]
  if exp?.isSome ∨ prob?.isSome ∨ niv?.isSome ∨ punt?.isSome then
    let base : ℚ := 0.5
      + (match exp? with | some e => (min e 20) / 20 * 0.2 | none => 0)
      + (match prob? with | some pr => (min pr 100) / 100 * 0.15 | none => 0)
      + (match niv? with
         | some n => let nivel := min n 10
                     if 1 ≤ nivel then (nivel - 1) / 9 * 0.15 else 0
         | none => 0)
    max 0.1 (min 0.9 base)
  else 0.6

/-- Embeds `_obtener_tasa_exito_participante`. -/
def obtenerTasaExitoParticipante (p : Participante) : ℚ :=
  match buscarTasa p posiblesNombresTasa with
  | some v => v
  | none => calcularTasaExitoEstimada p

/-- A nested `getattr(p, n1, getattr(p, n2, ..., d))` chain: the value of the
first present attribute (numeric or not), or the literal default `d`. -/
def getAttrChain (p : Participante) (d : ℚ) : List String → Option ℚ
  | [] => some d
  | n :: rest =>
    match p.attrs n with
    | none => getAttrChain p d rest
    | some v => v

/-- Result of a custom-method probe: the returned value when the method exists
and its result passes the guard, `none` otherwise (method absent, raised, or
returned an invalid value — all of which fall through to the fallback path). -/
def resolverCustom (m : Option (Option ℚ)) (ok : ℚ → Bool) : Option ℚ :=
  match m with
  | some (some r) => if ok r then some r else none
  | _ => none

/-- Embeds `_calcular_compatibilidad_segura`: custom method first (accepted
when its result lies in `[0, 1]`), otherwise success rate plus experience and
solved-problem factors, clamped to `[0.1, 0.95]`. -/
def calcularCompatibilidadSegura (p : Participante) : ℚ :=
  match resolverCustom p.customCompat (fun r => decide (0 ≤ r ∧ r ≤ 1)) with
  | some r => r
  | none =>
    let tasa := obtenerTasaExitoParticipante p
    let experiencia :=
      match getAttrChain p 0 ["competencias_previas", "experiencia", "experience"] with
      | some v => if v < 0 then 0 else v
      | none => 0
    let problemasResueltos :=
      match getAttrChain p 0 ["problemas_resueltos_total", "problemas_resueltos", "problems_solved"] with
      | some v => if v < 0 then 0 else v
      | none => 0
    let factorExperiencia := min 0.3 (experiencia / 20 * 0.3)
    let factorProblemas := min 0.2 (problemasResueltos / 100 * 0.2)
    max 0.1 (min 0.95 (tasa + factorExperiencia + factorProblemas))

/-- The `factores_dificultad` dictionary of `_calcular_probabilidad_exito_segura`
(default 1.0 for unknown keys). -/
def factorDificultad (s : String) : ℚ :=
  if s = "muy_facil" ∨ s = "muy facil" ∨ s = "muy fácil" ∨ s = "very easy" then 1.3
  else if s = "facil" ∨ s = "fácil" ∨ s = "easy" then 1.2
  else if s = "medio" ∨ s = "normal" ∨ s = "medium" ∨ s = "average" then 1.0
  else if s = "dificil" ∨ s = "difícil" ∨ s = "hard" then 0.8
  else if s = "muy_dificil" ∨ s = "muy difícil" ∨ s = "muy_difícil" ∨ s = "very hard" then 0.6
  else if s = "1" then 1.3
  else if s = "2" then 1.2
  else if s = "3" then 1.0
  else if s = "4" then 0.8
  else if s = "5" then 0.6
  else 1.0

/-- ASCII lowercase of one character; the difficulty labels the dictionary
distinguishes are ASCII-cased, so this captures `str.lower()` on them. -/
def minusculaChar (c : Char) : Char :=
  if 'A' ≤ c ∧ c ≤ 'Z' then Char.ofNat (c.toNat + 32) else c

/-- Embeds `str(...).lower().strip()` applied to the difficulty attribute:
lowercase every character, then drop surrounding whitespace. -/
def normalizarDificultad (s : String) : String :=
  String.mk
    ((((s.data.map minusculaChar).dropWhile (·.isWhitespace)).reverse.dropWhile
      (·.isWhitespace)).reverse)

/-- Embeds `_calcular_probabilidad_exito_segura`: custom method first (accepted
when in `[0, 1]`), otherwise success rate times the difficulty factor, clamped
to `[0.1, 0.95]`. -/
def calcularProbabilidadExitoSegura (p : Participante) (prob : Problema) : ℚ :=
  match resolverCustom p.customProb (fun r => decide (0 ≤ r ∧ r ≤ 1)) with
  | some r => r
  | none =>
    let tasaBase := obtenerTasaExitoParticipante p
    let dificultad := (prob.dificultadAttr).getD "medio"
    let factor := factorDificultad (normalizarDificultad dificultad)
    max 0.1 (min 0.95 (tasaBase * factor))

/-- Raw time base of `_estimar_tiempo_seguro` (lines 404-408):
`getattr(problema, 'tiempo_limite', 120)` with invalid values replaced by
120. -/
def tiempoBaseCrudo (prob : Problema) : ℚ :=
  match prob.tiempo_limite with
  | some (some v) => if v ≤ 0 then 120 else v
  | _ => 120

/-- Raw speed factor of `_estimar_tiempo_seguro` (lines 410-414):
`getattr(participante, 'factor_velocidad', 1.0)` with invalid values replaced
by 1.0. -/
def factorVelocidadCrudo (p : Participante) : ℚ :=
  match p.attrs "factor_velocidad" with
  | some (some v) => if v ≤ 0 then 1 else v
  | _ => 1

/-- Raw experience of `_estimar_tiempo_seguro` (lines 416-419):
`getattr(participante, 'competencias_previas', 0)` with invalid values
replaced by 0. -/
def experienciaCruda (p : Participante) : ℚ :=
  match p.attrs "competencias_previas" with
  | some (some v) => if v < 0 then 0 else v
  | _ => 0

/-- Fallback path of `_estimar_tiempo_seguro` (lines 404-429):
`max(30, int(base · velocidad · experiencia))` with
`base = clamp(int(tiempo_limite), 30, 300)`,
`velocidad = clamp(factor_velocidad, 0.5, 2.0)` and
`experiencia = max(0.7, 1 − competencias_previas / 50)`. -/
def estimarTiempoFallback (p : Participante) (prob : Problema) : ℤ :=
  let tiempoBase : ℤ := max 30 (min 300 ⌊tiempoBaseCrudo prob⌋)
  let factorVelocidad : ℚ := max 0.5 (min 2.0 (factorVelocidadCrudo p))
  let factorExperiencia : ℚ := max 0.7 (1 - experienciaCruda p / 50)
  max 30 ⌊(tiempoBase : ℚ) * factorVelocidad * factorExperiencia⌋

/-- Embeds `_estimar_tiempo_seguro`: custom method first (`max(30, int(r))`
when `r > 0`), otherwise the fallback path. -/
def estimarTiempoSeguro (p : Participante) (prob : Problema) : ℤ :=
  match p.customTiempo with
  | some (some r) =>
    if 0 < r then max 30 ⌊r⌋ else estimarTiempoFallback p prob
  | _ => estimarTiempoFallback p prob

/-- Embeds `_obtener_puntos_seguros`: direct `puntos_totales` when present,
positive and finite; otherwise `int(clamp(int(puntos_base), 10, 1000) ·
clamp(multiplicador_dificultad, 0.1, 5.0))`. -/
def obtenerPuntosSeguros (prob : Problema) : ℤ :=
  match prob.puntos_totales with
  | some (some v) => if 0 < v then ⌊v⌋ else puntosDesdeComponentes prob
  | _ => puntosDesdeComponentes prob
where
  /-- Component path of `_obtener_puntos_seguros` (lines 446-460). -/
  puntosDesdeComponentes (prob : Problema) : ℤ :=
    let pb0 : ℚ :=
      match prob.puntos_base with
      | some (some v) => if v ≤ 0 then 100 else v
      | _ => 100
    let mult0 : ℚ :=
      match prob.multiplicador_dificultad with
      | some (some v) => if v ≤ 0 then 1 else v
      | _ => 1
    let pb : ℤ := max 10 (min 1000 ⌊pb0⌋)
    let mult : ℚ := max 0.1 (min 5.0 mult0)
    ⌊(pb : ℚ) * mult⌋

/-! ### Chromosome matrices and assignment extraction -/

/-- A chromosome matrix.  Numpy arrays are rectangular: the pipeline only ever
builds matrices of shape `|problemas| × |participantes|`; access is
`(m.getD i []).getD j 0`, mirroring `matriz[i, j]`. -/
def Matriz : Type := List (List ℕ)

/-- Embeds `matriz.shape[0]`. -/
def filasDe (m : Matriz) : ℕ := m.length

/-- Embeds `matriz.shape[1]` (rows are uniform in numpy; the head row's length
is taken). -/
def colsDe (m : Matriz) : ℕ := (m.headD []).length

/-- Embeds `matriz[i, j]`. -/
def celda (m : Matriz) (i j : ℕ) : ℕ := (m.getD i []).getD j 0

/-- One entry of the `asignaciones` dictionaries built by
`_extraer_asignaciones_validas` (after the per-field validation of
lines 188-191). -/
structure Asignacion where
  problema_idx : ℕ
  participante_idx : ℕ
  prioridad : ℕ
  compatibilidad : ℚ
  probabilidad_exito : ℚ
  tiempo_estimado : ℤ
  puntos_problema : ℤ
  puntuacion_esperada : ℚ
deriving DecidableEq

/-- Placeholder for out-of-range list access; within the pipeline all index
accesses are in range, so the placeholders are never consulted. -/
def problemaVacio : Problema := ⟨none, none, none, none, none⟩

/-- Placeholder participant (see `problemaVacio`). -/
def participanteVacio : Participante := ⟨fun _ => none, none, none, none⟩

/-- Builds the assignment record of `_extraer_asignaciones_validas` for one
matrix cell, with the validations of lines 188-191 applied before
`puntuacion_esperada` is computed. -/
def construirAsignacion (i j prio : ℕ) (p : Participante) (prob : Problema) : Asignacion :=
  let compatibilidad := validarValor (calcularCompatibilidadSegura p) 0.5
  let probabilidadExito := validarValor (calcularProbabilidadExitoSegura p prob) 0.5
  let tiempoEstimado := max 30 (estimarTiempoSeguro p prob)
  let puntosProblema := max 10 (obtenerPuntosSeguros prob)
  ⟨i, j, prio, compatibilidad, probabilidadExito, tiempoEstimado, puntosProblema,
    (puntosProblema : ℚ) * probabilidadExito⟩

/-- Embeds `_extraer_asignaciones_validas`: every positive cell with row index
below `min(shape[0], |problemas|)` and column index below
`min(shape[1], |participantes|)` yields an assignment record, in row-major
order. -/
def extraerAsignacionesValidas (m : Matriz) (problemas : List Problema)
    (participantes : List Participante) : List Asignacion :=
  (List.range (min (filasDe m) problemas.length)).flatMap fun i =>
    (List.range (min (colsDe m) participantes.length)).filterMap fun j =>
      if 0 < celda m i j then
        some (construirAsignacion i j (celda m i j)
          (participantes.getD j participanteVacio) (problemas.getD i problemaVacio))
      else none

/-- First-wins deduplication loop used twice by `evaluar_individuo`
(lines 42-64): keep an assignment only when its key has not been seen. -/
def filtrarPrimeroPor (key : Asignacion → ℕ) : List Asignacion → List ℕ → List Asignacion
  | [], _ => []
  | a :: rest, vistos =>
    if key a ∈ vistos then filtrarPrimeroPor key rest vistos
    else a :: filtrarPrimeroPor key rest (key a :: vistos)

/-! ### Fitness components -/

/-- Embeds `_calcular_puntuacion_normalizada`. -/
def calcularPuntuacionNormalizada (asigs : List Asignacion) (problemas : List Problema) : ℚ :=
  if asigs.isEmpty then 0
  else
    let puntuacionTotal := (asigs.map (·.puntuacion_esperada)).sum
    let puntuacionMaxima : ℚ := ((problemas.map obtenerPuntosSeguros).sum : ℤ)
    if puntuacionMaxima = 0 then 0
    else validarValor (puntuacionTotal / puntuacionMaxima) 0

/-- Embeds `_calcular_compatibilidad_promedio`. -/
def calcularCompatibilidadPromedio (asigs : List Asignacion) : ℚ :=
  if asigs.isEmpty then 0
  else validarValor ((asigs.map (·.compatibilidad)).sum / (asigs.length : ℚ)) 0.5

/-- Raw `getattr(p, 'tiempo_limite', 120)` as seen by
`_calcular_tiempo_normalizado` (no numeric validation there); `none` signals a
present non-numeric value, on which the subsequent arithmetic would raise and
be caught (result 0.5). -/
def rawTiempoLimite (prob : Problema) : Option ℚ :=
  match prob.tiempo_limite with
  | none => some 120
  | some none => none
  | some (some v) => some v

/-- Embeds `_calcular_tiempo_normalizado`: total estimated time against 1.5
times the summed raw time limits, inverted and clamped. -/
def calcularTiempoNormalizado (asigs : List Asignacion) (problemas : List Problema) : ℚ :=
  if asigs.isEmpty then 0
  else
    match problemas.mapM rawTiempoLimite with
    | none => 0.5
    | some limites =>
      let tiempoTotal : ℚ := ((asigs.map (·.tiempo_estimado)).sum : ℤ)
      let tiempoMaximo := limites.sum * 1.5
      if tiempoMaximo = 0 then 0.5
      else validarValor (max 0 (1 - min 1 (tiempoTotal / tiempoMaximo))) 0.5

/-- Embeds `_calcular_balance_participantes`. -/
def calcularBalanceParticipantes (asigs : List Asignacion) (totalParticipantes : ℕ) : ℚ :=
  if asigs.isEmpty ∨ totalParticipantes = 0 then 0
  else validarValor (((asigs.map (·.participante_idx)).dedup.length : ℚ) / totalParticipantes) 0

/-- Embeds `_calcular_diversificacion`.  `np.sqrt` is irrational, so it is kept
abstract as the parameter `sqrtQ`; every result proved below holds for every
choice of `sqrtQ`, in particular for the true square root. -/
def calcularDiversificacion (sqrtQ : ℚ → ℚ) (asigs : List Asignacion) : ℚ :=
  if asigs.isEmpty then 0
  else
    let prioridades : List ℚ := asigs.map (fun a => (a.prioridad : ℚ))
    let varianzaPrioridades :=
      if 1 < prioridades.length then
        let media := prioridades.sum / (prioridades.length : ℚ)
        ((prioridades.map (fun x => (x - media) ^ 2)).sum) / (prioridades.length : ℚ)
      else 0
    let posiciones : List (ℚ × ℚ) :=
      asigs.map (fun a => ((a.problema_idx : ℚ), (a.participante_idx : ℚ)))
    let dispersionPromedio :=
      if 1 < posiciones.length then
        let centroideProb := (posiciones.map (·.1)).sum / (posiciones.length : ℚ)
        let centroidePart := (posiciones.map (·.2)).sum / (posiciones.length : ℚ)
        let dispersiones := posiciones.map
          (fun pos => sqrtQ ((pos.1 - centroideProb) ^ 2 + (pos.2 - centroidePart) ^ 2))
        dispersiones.sum / (dispersiones.length : ℚ)
      else 0
    min 1 ((varianzaPrioridades * 0.3 + dispersionPromedio * 0.7) / 10)

/-- Outcome of one individual evaluation: the fields of `IndividuoGenetico`
written by `EvaluadorFitness.evaluar_individuo`. -/
structure ResultadoEvaluacion where
  fitness : ℚ
  es_valido : Bool
deriving DecidableEq

/-- Embeds `EvaluadorFitness.evaluar_individuo`.  Python exceptions are
modelled explicitly: `excInterna` signals an exception raised inside the
component-calculation block (lines 74-92) and `excExterna` one raised anywhere
in the body and caught by the outer handler (lines 122-127); `none` means the
corresponding block runs normally.  The function is total: every signalled
exception is absorbed into a fitness-0 invalid result and never propagates. -/
def evaluarIndividuo (sqrtQ : ℚ → ℚ) (m : Matriz) (problemas : List Problema)
    (participantes : List Participante)
    (excInterna excExterna : Option String) : ResultadoEvaluacion :=
  match excExterna with
  | some _ => ⟨0, false⟩
  | none =>
    let asignaciones := extraerAsignacionesValidas m problemas participantes
    if asignaciones.isEmpty then ⟨0, false⟩
    else
      let sinParticipantesDuplicados := filtrarPrimeroPor (·.participante_idx) asignaciones []
      let asignacionesFinales := filtrarPrimeroPor (·.problema_idx) sinParticipantesDuplicados []
      if asignacionesFinales.isEmpty then ⟨0, false⟩
      else
        match excInterna with
        | some _ => ⟨0, false⟩
        | none =>
          let puntuacionNorm := validarValor
            (calcularPuntuacionNormalizada asignacionesFinales problemas) 0
          let compatibilidadProm := validarValor
            (calcularCompatibilidadPromedio asignacionesFinales) 0.5
          let tiempoNorm := validarValor
            (calcularTiempoNormalizado asignacionesFinales problemas) 0.5
          let balanceNorm := validarValor
            (calcularBalanceParticipantes asignacionesFinales participantes.length) 0
          let fitnessBase := 0.40 * puntuacionNorm + 0.30 * compatibilidadProm
            + 0.20 * tiempoNorm + 0.10 * balanceNorm
          let diversificacion := calcularDiversificacion sqrtQ asignacionesFinales
          let fitness0 := fitnessBase + diversificacion * 0.01
          let fitness1 := if 0.8 < compatibilidadProm then fitness0 * 1.1 else fitness0
          ⟨max 0 (min 1 fitness1), true⟩

/-! ### Result detail (`_generar_asignaciones_detalle`) -/

/-- Rounds to two decimals (`round(x, 2)`); Python's half-to-even differs only
at exact half ties, which do not occur in any statement below. -/
def round2 (q : ℚ) : ℚ := (⌊q * 100 + 1 / 2⌋ : ℚ) / 100

/-- One plan entry produced by `_generar_asignaciones_detalle`; `problema_id`
and `participante_id` default to the matrix indices when the objects carry no
`id` attribute, so the indices identify the task and the agent. -/
structure Detalle where
  problema_idx : ℕ
  participante_idx : ℕ
  prioridad : ℕ
  puntos_problema : ℤ
  compatibilidad : ℚ
  probabilidad_exito : ℚ
  tiempo_estimado : ℤ
  puntuacion_esperada : ℚ
deriving DecidableEq

/-- Builds one detail entry (lines 1203-1228), with the re-validations of
lines 1210-1213. -/
def construirDetalle (i j prio : ℕ) (p : Participante) (prob : Problema) : Detalle :=
  let puntos := max 10 (obtenerPuntosSeguros prob)
  let compatibilidad := max 0.1 (min 1 (calcularCompatibilidadSegura p))
  let probExito := max 0.1 (min 1 (calcularProbabilidadExitoSegura p prob))
  let tiempoEst := max 30 (estimarTiempoSeguro p prob)
  ⟨i, j, prio, puntos, compatibilidad, probExito, tiempoEst,
    round2 ((puntos : ℚ) * probExito)⟩

/-- Row-major cell order of the nested loops of
`_generar_asignaciones_detalle`. -/
def indicesMatriz (m : Matriz) : List (ℕ × ℕ) :=
  (List.range (filasDe m)).flatMap fun i =>
    (List.range (colsDe m)).map fun j => (i, j)

/-- The loop body of `_generar_asignaciones_detalle`, carrying the
`problemas_asignados` / `participantes_asignados` seen-sets: a positive cell is
emitted only when neither its row nor its column has been used before. -/
def detalleBucle (m : Matriz) (problemas : List Problema) (participantes : List Participante) :
    List (ℕ × ℕ) → List ℕ → List ℕ → List Detalle
  | [], _, _ => []
  | (i, j) :: rest, problemasUsados, participantesUsados =>
    if 0 < celda m i j then
      if i ∈ problemasUsados then
        detalleBucle m problemas participantes rest problemasUsados participantesUsados
      else if j ∈ participantesUsados then
        detalleBucle m problemas participantes rest problemasUsados participantesUsados
      else
        construirDetalle i j (celda m i j)
            (participantes.getD j participanteVacio) (problemas.getD i problemaVacio)
          :: detalleBucle m problemas participantes rest
              (i :: problemasUsados) (j :: participantesUsados)
    else detalleBucle m problemas participantes rest problemasUsados participantesUsados

/-- Embeds `_generar_asignaciones_detalle`. -/
def generarAsignacionesDetalle (m : Matriz) (problemas : List Problema)
    (participantes : List Participante) : List Detalle :=
  detalleBucle m problemas participantes (indicesMatriz m) [] []

/-! ### Top-solutions filter (`_actualizar_top_soluciones`) -/

/-- The fields of an individual consulted by `_actualizar_top_soluciones`. -/
structure Sol where
  cromosoma : List (List ℕ)
  fitness : ℚ
  es_valido : Bool
deriving DecidableEq

/-- Rounds to six decimals (`round(x, 6)`); Python's half-to-even differs only
at exact half ties, which do not occur in any statement below. -/
def round6 (q : ℚ) : ℚ := (⌊q * 1000000 + 1 / 2⌋ : ℚ) / 1000000

/-- Stable insertion into a fitness-descending list (an element is placed
before the first strictly smaller fitness, after equal ones). -/
def insertarPorFitness (s : Sol) : List Sol → List Sol
  | [] => [s]
  | t :: rest =>
    if t.fitness ≤ s.fitness then s :: t :: rest else t :: insertarPorFitness s rest

/-- Embeds `sorted(candidatos, key=fitness, reverse=True)`: Python's sort is
stable, and every stable sort by the same key produces the same list, so a
stable insertion sort is an exact model. -/
def ordenarPorFitnessDesc : List Sol → List Sol
  | [] => []
  | s :: rest => insertarPorFitness s (ordenarPorFitnessDesc rest)

/-- The candidate walk of `_actualizar_top_soluciones` (lines 1064-1087),
carrying `soluciones_unicas`, `matrices_vistas` (matrix byte-hashes, modelled
as the matrices themselves) and `fitness_vistos` (6-decimal-rounded fitness
values).  A candidate is admitted when its matrix is new and its rounded
fitness is unseen (or it is the first admission, or its fitness exceeds 0.8);
the walk stops at three admissions. -/
def seleccionarTop : List Sol → List Sol → List (List (List ℕ)) → List ℚ → List Sol
  | [], unicas, _, _ => unicas
  | c :: rest, unicas, vistas, fitnessVistos =>
    if 3 ≤ unicas.length then unicas
    else
      let esNuevo := c.cromosoma ∉ vistas
      let esFitnessDiverso := round6 c.fitness ∉ fitnessVistos ∨ unicas.length = 0
      if esNuevo ∧ (esFitnessDiverso ∨ 0.8 < c.fitness) then
        seleccionarTop rest (unicas ++ [c]) (c.cromosoma :: vistas)
          (round6 c.fitness :: fitnessVistos)
      else seleccionarTop rest unicas vistas fitnessVistos

/-- Embeds `_actualizar_top_soluciones`: current population and previous top
solutions are pooled, sorted by fitness descending, and filtered by
`seleccionarTop`. -/
def actualizarTopSoluciones (poblacion topAnteriores : List Sol) : List Sol :=
  seleccionarTop (ordenarPorFitnessDesc (poblacion ++ topAnteriores)) [] [] []

/-- The plans kept by `_generar_resultado_final`: top solutions whose detail
list is non-empty (line 1102's `if not asignaciones_detalle: continue`). -/
def planesDevueltos (top : List Sol) (problemas : List Problema)
    (participantes : List Participante) : List Sol :=
  top.filter fun s => !(generarAsignacionesDetalle s.cromosoma problemas participantes).isEmpty

/-! ### Evolution loop (`AlgoritmoGeneticoCoderush.ejecutar`, lines 784-850) -/

/-- One generation's bookkeeping: given the best fitness after this
generation's top-solutions update (`nuevo`) and the previous best (`prev`),
the no-improvement counter resets when the improvement exceeds `10⁻⁵` and
increments otherwise. -/
def pasoGeneracion (nuevo prev : ℚ) (sinMejora : ℕ) : ℚ × ℕ :=
  (nuevo, if 1 / 100000 < nuevo - prev then 0 else sinMejora + 1)

/-- Embeds the `for generacion in range(self.generaciones_max)` loop.  The
stochastic population update is abstracted by `mejores`, where `mejores g` is
the best fitness held by `top_soluciones` after generation `g`'s update — the
loop's control flow depends on the populations only through these values.
Returns `(generaciones ejecutadas, fitness final)`.  The function is
structurally recursive on the remaining generation count, so the loop always
terminates. -/
def ejecutarBucle (mejores : ℕ → ℚ) : ℚ → ℕ → ℕ → ℕ → ℕ × ℚ
  | prev, _, g, 0 => (g, prev)
  | prev, sinMejora, g, fuel + 1 =>
    let paso := pasoGeneracion (mejores g) prev sinMejora
    if 30 ≤ paso.2 ∨ 98 / 100 ≤ paso.1 then (g + 1, paso.1)
    else ejecutarBucle mejores paso.1 paso.2 (g + 1) fuel

/-- State (best fitness, no-improvement counter) after `n` generations,
starting from best `prev0` and counter 0. -/
def estadoTras (mejores : ℕ → ℚ) (prev0 : ℚ) : ℕ → ℚ × ℕ
  | 0 => (prev0, 0)
  | n + 1 =>
    let e := estadoTras mejores prev0 n
    pasoGeneracion (mejores n) e.1 e.2

/-- Whether a stop condition of the loop holds right after generation `n`'s
update: 30 generations without improvement above `10⁻⁵`, or best fitness at
least 0.98. -/
def condicionParada (mejores : ℕ → ℚ) (prev0 : ℚ) (n : ℕ) : Bool :=
  let e := estadoTras mejores prev0 (n + 1)
  30 ≤ e.2 ∨ 98 / 100 ≤ e.1

/-! ### No-feasible-start abort (`ejecutar`, lines 757-773) -/

/-- The distinct message of the exception raised when the evaluated initial
population contains zero valid individuals. -/
def mensajeSinInicioFactible : String :=
  "No se pudo crear ningún individuo válido en la población inicial. Revise los datos de entrada."

/-- Embeds the initial-population gate of `ejecutar`: counting valid
individuals after evaluation and aborting, with no plans, when none is valid.
The surrounding handler of line 857 re-raises the same message wrapped in
`"Error durante la optimización: ..."`. -/
def iniciarOptimizacion (poblacionEvaluada : List Sol) : Except String (List Sol) :=
  if (poblacionEvaluada.filter (·.es_valido)).length = 0 then
    .error mensajeSinInicioFactible
  else .ok poblacionEvaluada

/-! ### Spec-side notions (for refinement comparison only) -/

/-- Modelled from the spec: "T_parallel is the maximum per-agent sum of
estimated solve times across agents used".  Not computed anywhere in the
source; defined here only to compare the spec's claims with the code. -/
def tiempoParaleloSpec (asigs : List Asignacion) : ℤ :=
  (((asigs.map (·.participante_idx)).dedup).map fun j =>
    ((asigs.filter fun a => a.participante_idx = j).map (·.tiempo_estimado)).sum).foldr max 0

/-- Modelled from the spec: Hamming similarity of two equal-shape chromosomes,
the fraction of identical cells.  Defined here only to compare the spec's
diversity claim with the code. -/
def similitudHammingSpec (a b : List (List ℕ)) : ℚ :=
  let n := filasDe a * colsDe a
  if n = 0 then 1
  else (((indicesMatriz a).filter fun p => celda a p.1 p.2 = celda b p.1 p.2).length : ℚ) / n

/-- Modelled from the spec: the (task, agent) pairs asserted by a chromosome. -/
def paresAsignadosSpec (a : List (List ℕ)) : List (ℕ × ℕ) :=
  (indicesMatriz a).filter fun p => 0 < celda a p.1 p.2

/-- Modelled from the spec: the number of (task, agent) pairs on which two
plans differ (symmetric difference of their assignment-pair sets). -/
def paresDiferentesSpec (a b : List (List ℕ)) : ℕ :=
  ((paresAsignadosSpec a).filter fun p => p ∉ paresAsignadosSpec b).length
    + ((paresAsignadosSpec b).filter fun p => p ∉ paresAsignadosSpec a).length

/-! ### Concrete instances used in the example-based statements -/

/-- A trivial stand-in for `np.sqrt`; the examples below never reach the
square-root branch (they carry at most one assignment), so any choice gives
the same results. -/
def sqrtCero : ℚ → ℚ := fun _ => 0

/-- Attribute table of a participant carrying only `factor_velocidad = 2`. -/
def atributosVeloz : String → Option (Option ℚ) :=
  fun n => if n = "factor_velocidad" then some (some 2) else none

/-- A slow participant: speed factor 2 doubles the estimated solve time. -/
def participanteVeloz : Participante := ⟨atributosVeloz, none, none, none⟩

/-- A problem with a 300-minute time limit and default everything else. -/
def problemaLargo : Problema := ⟨none, some (some 300), none, none, none⟩

/-- The assignment record the evaluator extracts for `participanteVeloz` on
`problemaLargo`. -/
def asignacionLarga : Asignacion := ⟨0, 0, 1, 3/5, 3/5, 600, 100, 60⟩

/-- The evaluated individual assigning `problemaLargo` to `participanteVeloz`. -/
def solucionLarga : Sol := ⟨[[1]], 13/25, true⟩

/-- Attribute table carrying only a 0.9 historical success rate. -/
def atributosFuerte : String → Option (Option ℚ) :=
  fun n => if n = "tasa_exito_historica" then some (some (9/10)) else none

/-- A participant with historical success rate 0.9. -/
def participanteFuerte : Participante := ⟨atributosFuerte, none, none, none⟩

/-- A problem labelled `facil`. -/
def problemaFacil : Problema := ⟨some "facil", none, none, none, none⟩

/-- A participant with no attributes at all. -/
def participanteBasico : Participante := ⟨fun _ => none, none, none, none⟩

/-- A problem with a 100-minute time limit and default everything else. -/
def problemaCien : Problema := ⟨none, some (some 100), none, none, none⟩

/-- A valid solution with fitness 0.5. -/
def solucionValida : Sol := ⟨[[1]], 1/2, true⟩

/-- An invalid solution (fitness 0) with a distinct matrix. -/
def solucionInvalida : Sol := ⟨[[2]], 0, false⟩

/-- First of two nearly identical top solutions: same assignment pair set. -/
def solucionGemelaA : Sol := ⟨[[1, 0], [0, 1]], 9/10, true⟩

/-- Second twin: differs from `solucionGemelaA` only in one priority value, so
the (task, agent) pair sets coincide. -/
def solucionGemelaB : Sol := ⟨[[1, 0], [0, 2]], 17/20, true⟩

/-- A best-fitness trajectory that jumps to 1 immediately. -/
def mejoresUno : ℕ → ℚ := fun _ => 1

/-- An initial population whose individuals are all invalid. -/
def poblacionInvalida : List Sol := [⟨[[0]], 0, false⟩, ⟨[[1]], 0, false⟩]

/-! ## Helper lemmas -/

theorem filtrar_cons_nil (k : Asignacion → ℕ) (a : Asignacion) (l : List Asignacion) :
    filtrarPrimeroPor k (a :: l) [] = a :: filtrarPrimeroPor k l [k a] := by
  simp [filtrarPrimeroPor]

theorem resolverCustom_some {m : Option (Option ℚ)} {ok : ℚ → Bool} {r : ℚ}
    (h : resolverCustom m ok = some r) : ok r = true := by
  rcases m with _ | _ | v
  · simp [resolverCustom] at h
  · simp [resolverCustom] at h
  · rw [resolverCustom] at h
    by_cases hg : ok v = true
    · rw [if_pos hg] at h
      cases h
      exact hg
    · rw [if_neg (by simpa using hg)] at h
      cases h

theorem experienciaCruda_nonneg (p : Participante) : 0 ≤ experienciaCruda p := by
  rw [experienciaCruda]
  rcases p.attrs "competencias_previas" with _ | _ | v
  · norm_num
  · norm_num
  · dsimp only
    split
    · norm_num
    · linarith [not_lt.mp (by assumption : ¬ v < 0)]

theorem eval_fitness_rango (sqrtQ : ℚ → ℚ) (m : Matriz) (problemas : List Problema)
    (participantes : List Participante) (i o : Option String) :
    0 ≤ (evaluarIndividuo sqrtQ m problemas participantes i o).fitness
    ∧ (evaluarIndividuo sqrtQ m problemas participantes i o).fitness ≤ 1 := by
  rcases o with _ | e
  · rcases i with _ | e2
    · rw [evaluarIndividuo]
      dsimp only
      split
      · exact ⟨le_rfl, zero_le_one⟩
      · split
        · exact ⟨le_rfl, zero_le_one⟩
        · exact ⟨le_max_left _ _, max_le zero_le_one (min_le_left _ _)⟩
    · rw [evaluarIndividuo]
      dsimp only
      split
      · exact ⟨le_rfl, zero_le_one⟩
      · split
        · exact ⟨le_rfl, zero_le_one⟩
        · exact ⟨le_rfl, zero_le_one⟩
  · exact ⟨le_rfl, zero_le_one⟩

theorem mem_insertarPorFitness {t s : Sol} :
    ∀ {l : List Sol}, t ∈ insertarPorFitness s l ↔ t = s ∨ t ∈ l := by
  intro l
  induction l with
  | nil => simp [insertarPorFitness]
  | cons a rest ih =>
    rw [insertarPorFitness]
    split
    · simp
    · simp only [List.mem_cons, ih]
      tauto

theorem mem_ordenarPorFitnessDesc {t : Sol} :
    ∀ {l : List Sol}, t ∈ ordenarPorFitnessDesc l ↔ t ∈ l := by
  intro l
  induction l with
  | nil => simp [ordenarPorFitnessDesc]
  | cons a rest ih =>
    rw [ordenarPorFitnessDesc]
    rw [mem_insertarPorFitness]
    simp [ih]

theorem mem_seleccionarTop :
    ∀ (cand acc : List Sol) (vistas : List (List (List ℕ))) (fv : List ℚ) (s : Sol),
      s ∈ seleccionarTop cand acc vistas fv → s ∈ acc ∨ s ∈ cand := by
  intro cand
  induction cand with
  | nil => intro acc v f s hs; rw [seleccionarTop] at hs; exact Or.inl hs
  | cons c rest ih =>
    intro acc v f s hs
    rw [seleccionarTop] at hs
    by_cases h3 : 3 ≤ acc.length
    · rw [if_pos h3] at hs; exact Or.inl hs
    · rw [if_neg h3] at hs
      dsimp only at hs
      split at hs
      · rcases ih _ _ _ s hs with h | h
        · rcases List.mem_append.mp h with h | h
          · exact Or.inl h
          · simp at h; subst h; exact Or.inr (List.mem_cons_self _ _)
        · exact Or.inr (List.mem_cons_of_mem _ h)
      · rcases ih _ _ _ s hs with h | h
        · exact Or.inl h
        · exact Or.inr (List.mem_cons_of_mem _ h)

theorem seleccionarTop_longitud :
    ∀ (cand acc : List Sol) (vistas : List (List (List ℕ))) (fv : List ℚ),
      acc.length ≤ 3 → (seleccionarTop cand acc vistas fv).length ≤ 3 := by
  intro cand
  induction cand with
  | nil => intro acc v f h; rw [seleccionarTop]; exact h
  | cons c rest ih =>
    intro acc v f h
    rw [seleccionarTop]
    by_cases h3 : 3 ≤ acc.length
    · rw [if_pos h3]; exact h
    · rw [if_neg h3]
      dsimp only
      split
      · exact ih _ _ _ (by simp; omega)
      · exact ih _ _ _ h

theorem seleccionarTop_cromosomas_distintos :
    ∀ (cand acc : List Sol) (vistas : List (List (List ℕ))) (fv : List ℚ),
      acc.Pairwise (fun a b => a.cromosoma ≠ b.cromosoma) →
      (∀ s ∈ acc, s.cromosoma ∈ vistas) →
      (seleccionarTop cand acc vistas fv).Pairwise (fun a b => a.cromosoma ≠ b.cromosoma) := by
  intro cand
  induction cand with
  | nil => intro acc v f hp _; rw [seleccionarTop]; exact hp
  | cons c rest ih =>
    intro acc v f hp hv
    rw [seleccionarTop]
    by_cases h3 : 3 ≤ acc.length
    · rw [if_pos h3]; exact hp
    · rw [if_neg h3]
      dsimp only
      split
      · rename_i hcond
        apply ih
        · rw [List.pairwise_append]
          refine ⟨hp, by simp, ?_⟩
          intro a ha b hb
          simp at hb
          subst hb
          intro hcrom
          exact hcond.1 (hcrom ▸ hv a ha)
        · intro s hs
          rcases List.mem_append.mp hs with h | h
          · exact List.mem_cons_of_mem _ (hv s h)
          · simp at h; subst h; exact List.mem_cons_self _ _
      · exact ih _ _ _ hp hv

theorem detalleBucle_mem (m : Matriz) (problemas : List Problema)
    (participantes : List Participante) :
    ∀ (idxs : List (ℕ × ℕ)) (pu qu : List ℕ) (d : Detalle),
      d ∈ detalleBucle m problemas participantes idxs pu qu →
      d.problema_idx ∉ pu ∧ d.participante_idx ∉ qu := by
  intro idxs
  induction idxs with
  | nil => intro pu qu d hd; simp [detalleBucle] at hd
  | cons ij rest ih =>
    intro pu qu d hd
    obtain ⟨i, j⟩ := ij
    rw [detalleBucle] at hd
    by_cases h1 : 0 < celda m i j
    · rw [if_pos h1] at hd
      by_cases h2 : i ∈ pu
      · rw [if_pos h2] at hd; exact ih pu qu d hd
      · rw [if_neg h2] at hd
        by_cases h3 : j ∈ qu
        · rw [if_pos h3] at hd; exact ih pu qu d hd
        · rw [if_neg h3] at hd
          rcases List.mem_cons.mp hd with h | h
          · subst h
            exact ⟨by simpa [construirDetalle] using h2, by simpa [construirDetalle] using h3⟩
          · have hm2 := ih _ _ d h
            exact ⟨fun hc => hm2.1 (List.mem_cons_of_mem _ hc),
                   fun hc => hm2.2 (List.mem_cons_of_mem _ hc)⟩
    · rw [if_neg h1] at hd; exact ih pu qu d hd

theorem detalleBucle_pairwise (m : Matriz) (problemas : List Problema)
    (participantes : List Participante) :
    ∀ (idxs : List (ℕ × ℕ)) (pu qu : List ℕ),
      (detalleBucle m problemas participantes idxs pu qu).Pairwise
        (fun a b => a.problema_idx ≠ b.problema_idx
          ∧ a.participante_idx ≠ b.participante_idx) := by
  intro idxs
  induction idxs with
  | nil => intro pu qu; simp [detalleBucle]
  | cons ij rest ih =>
    intro pu qu
    obtain ⟨i, j⟩ := ij
    rw [detalleBucle]
    by_cases h1 : 0 < celda m i j
    · rw [if_pos h1]
      by_cases h2 : i ∈ pu
      · rw [if_pos h2]; exact ih pu qu
      · rw [if_neg h2]
        by_cases h3 : j ∈ qu
        · rw [if_pos h3]; exact ih pu qu
        · rw [if_neg h3]
          refine List.pairwise_cons.mpr ⟨?_, ih _ _⟩
          intro d hd
          have hm2 := detalleBucle_mem m problemas participantes rest _ _ d hd
          constructor
          · intro hc
            apply hm2.1
            rw [← hc]
            simp [construirDetalle]
          · intro hc
            apply hm2.2
            rw [← hc]
            simp [construirDetalle]
    · rw [if_neg h1]; exact ih pu qu

theorem ejecutarBucle_cota (mejores : ℕ → ℚ) :
    ∀ (fuel g : ℕ) (prev : ℚ) (s : ℕ),
      (ejecutarBucle mejores prev s g fuel).1 ≤ g + fuel := by
  intro fuel
  induction fuel with
  | zero => intro g prev s; rw [ejecutarBucle]; omega
  | succ n ih =>
    intro g prev s
    rw [ejecutarBucle]
    split
    · omega
    · have := ih (g + 1) (pasoGeneracion (mejores g) prev s).1 (pasoGeneracion (mejores g) prev s).2
      omega

theorem ejecutarBucle_caracterizacion (mejores : ℕ → ℚ) (prev0 : ℚ) :
    ∀ (fuel g : ℕ),
      (ejecutarBucle mejores (estadoTras mejores prev0 g).1 (estadoTras mejores prev0 g).2 g fuel).1
          < g + fuel →
      condicionParada mejores prev0
          ((ejecutarBucle mejores (estadoTras mejores prev0 g).1
            (estadoTras mejores prev0 g).2 g fuel).1 - 1) = true
      ∧ ∀ k, g ≤ k →
          k < (ejecutarBucle mejores (estadoTras mejores prev0 g).1
            (estadoTras mejores prev0 g).2 g fuel).1 - 1 →
          condicionParada mejores prev0 k = false := by
  intro fuel
  induction fuel with
  | zero =>
    intro g h
    rw [ejecutarBucle] at h
    omega
  | succ n ih =>
    intro g h
    rw [ejecutarBucle] at h ⊢
    have hpaso : pasoGeneracion (mejores g) (estadoTras mejores prev0 g).1
        (estadoTras mejores prev0 g).2 = estadoTras mejores prev0 (g + 1) := by
      rw [estadoTras]
    by_cases hc : 30 ≤ (pasoGeneracion (mejores g) (estadoTras mejores prev0 g).1
        (estadoTras mejores prev0 g).2).2
      ∨ 98 / 100 ≤ (pasoGeneracion (mejores g) (estadoTras mejores prev0 g).1
        (estadoTras mejores prev0 g).2).1
    · rw [if_pos hc] at h ⊢
      dsimp only
      constructor
      · have hg1 : g + 1 - 1 = g := by omega
        rw [hg1, condicionParada]
        rw [← hpaso]
        exact decide_eq_true hc
      · intro k hk1 hk2
        omega
    · rw [if_neg hc] at h ⊢
      rw [hpaso] at h ⊢
      have ih2 := ih (g + 1) (by omega)
      refine ⟨ih2.1, ?_⟩
      intro k hk1 hk2
      by_cases hkg : k = g
      · subst hkg
        rw [condicionParada, ← hpaso]
        exact decide_eq_false hc
      · exact ih2.2 k (by omega) hk2

/-! ## Concrete evaluations -/

theorem tasaVeloz : obtenerTasaExitoParticipante participanteVeloz = 3/5 := by
  rw [obtenerTasaExitoParticipante]
  simp +decide [buscarTasa, posiblesNombresTasa, calcularTasaExitoEstimada, buscarIndicador,
    show participanteVeloz.attrs = atributosVeloz from rfl, atributosVeloz]
  norm_num

theorem compatVeloz : calcularCompatibilidadSegura participanteVeloz = 3/5 := by
  rw [calcularCompatibilidadSegura]
  simp +decide [resolverCustom, show participanteVeloz.customCompat = none from rfl,
    show participanteVeloz.attrs = atributosVeloz from rfl, atributosVeloz, getAttrChain,
    tasaVeloz]
  norm_num

theorem probExVeloz : calcularProbabilidadExitoSegura participanteVeloz problemaLargo = 3/5 := by
  rw [calcularProbabilidadExitoSegura]
  simp +decide [resolverCustom, show participanteVeloz.customProb = none from rfl,
    show problemaLargo.dificultadAttr = none from rfl,
    show normalizarDificultad "medio" = "medio" from by decide, factorDificultad, tasaVeloz]
  norm_num

theorem tiempoVeloz : estimarTiempoSeguro participanteVeloz problemaLargo = 600 := by
  rw [estimarTiempoSeguro, show participanteVeloz.customTiempo = none from rfl,
    estimarTiempoFallback]
  simp +decide [tiempoBaseCrudo, factorVelocidadCrudo, experienciaCruda,
    show participanteVeloz.attrs = atributosVeloz from rfl, atributosVeloz,
    show problemaLargo.tiempo_limite = some (some 300) from rfl]
  norm_num

theorem puntosLargo : obtenerPuntosSeguros problemaLargo = 100 := by
  rw [obtenerPuntosSeguros]
  simp +decide [obtenerPuntosSeguros.puntosDesdeComponentes,
    show problemaLargo.puntos_totales = none from rfl,
    show problemaLargo.puntos_base = none from rfl,
    show problemaLargo.multiplicador_dificultad = none from rfl]
  norm_num

theorem construirLarga :
    construirAsignacion 0 0 1 participanteVeloz problemaLargo = asignacionLarga := by
  rw [construirAsignacion, compatVeloz, probExVeloz, tiempoVeloz, puntosLargo]
  simp +decide [validarValor, asignacionLarga]
  norm_num

theorem extraerLarga :
    extraerAsignacionesValidas [[1]] [problemaLargo] [participanteVeloz] = [asignacionLarga] := by
  rw [extraerAsignacionesValidas]
  have hr : List.range 1 = [0] := by decide
  simp +decide [filasDe, colsDe, celda, hr]
  exact construirLarga

set_option maxHeartbeats 2000000 in
theorem evalLarga :
    evaluarIndividuo sqrtCero [[1]] [problemaLargo] [participanteVeloz] none none
      = ⟨13/25, true⟩ := by
  rw [evaluarIndividuo, extraerLarga]
  simp +decide [filtrarPrimeroPor, calcularPuntuacionNormalizada, calcularCompatibilidadPromedio,
    calcularTiempoNormalizado, calcularBalanceParticipantes, calcularDiversificacion,
    rawTiempoLimite, validarValor, asignacionLarga, puntosLargo,
    show List.mapM.loop rawTiempoLimite [problemaLargo] [] = some [300] from rfl]
  norm_num

theorem tparLarga : tiempoParaleloSpec [asignacionLarga] = 600 := by
  simp +decide [tiempoParaleloSpec, asignacionLarga]

set_option maxHeartbeats 1000000 in
theorem planLarga :
    planesDevueltos (actualizarTopSoluciones [solucionLarga] []) [problemaLargo]
        [participanteVeloz]
      = [solucionLarga] := by
  rw [actualizarTopSoluciones]
  simp +decide [ordenarPorFitnessDesc, insertarPorFitness, seleccionarTop, planesDevueltos,
    generarAsignacionesDetalle, indicesMatriz, detalleBucle, filasDe, colsDe, celda,
    solucionLarga, construirDetalle]

theorem tasaFuerte : obtenerTasaExitoParticipante participanteFuerte = 9/10 := by
  rw [obtenerTasaExitoParticipante]
  simp +decide [buscarTasa, posiblesNombresTasa,
    show participanteFuerte.attrs = atributosFuerte from rfl, atributosFuerte]
  norm_num

theorem probFuerteFacil :
    calcularProbabilidadExitoSegura participanteFuerte problemaFacil = 19/20 := by
  rw [calcularProbabilidadExitoSegura]
  simp +decide [resolverCustom, show participanteFuerte.customProb = none from rfl,
    show problemaFacil.dificultadAttr = some "facil" from rfl,
    show normalizarDificultad "facil" = "facil" from by decide, factorDificultad, tasaFuerte]
  norm_num

theorem tiempoCienBasico : estimarTiempoSeguro participanteBasico problemaCien = 100 := by
  rw [estimarTiempoSeguro, show participanteBasico.customTiempo = none from rfl,
    estimarTiempoFallback]
  simp +decide [tiempoBaseCrudo, factorVelocidadCrudo, experienciaCruda,
    show problemaCien.tiempo_limite = some (some 100) from rfl,
    show participanteBasico.attrs = (fun _ => none) from rfl]
  norm_num

set_option maxHeartbeats 1000000 in
theorem topInvalida :
    actualizarTopSoluciones [solucionValida, solucionInvalida] []
      = [solucionValida, solucionInvalida] := by
  rw [actualizarTopSoluciones, List.append_nil]
  rw [show ordenarPorFitnessDesc [solucionValida, solucionInvalida]
      = [solucionValida, solucionInvalida] by
    rw [ordenarPorFitnessDesc, ordenarPorFitnessDesc, ordenarPorFitnessDesc]
    rw [insertarPorFitness, insertarPorFitness]
    norm_num [solucionValida, solucionInvalida]]
  rw [seleccionarTop]
  norm_num [solucionValida, solucionInvalida]
  rw [seleccionarTop]
  norm_num [round6, solucionValida, solucionInvalida]
  rw [seleccionarTop]

set_option maxHeartbeats 1000000 in
theorem topGemelas :
    actualizarTopSoluciones [solucionGemelaA, solucionGemelaB] []
      = [solucionGemelaA, solucionGemelaB] := by
  rw [actualizarTopSoluciones, List.append_nil]
  rw [show ordenarPorFitnessDesc [solucionGemelaA, solucionGemelaB]
      = [solucionGemelaA, solucionGemelaB] by
    rw [ordenarPorFitnessDesc, ordenarPorFitnessDesc, ordenarPorFitnessDesc]
    rw [insertarPorFitness, insertarPorFitness]
    norm_num [solucionGemelaA, solucionGemelaB]]
  rw [seleccionarTop]
  norm_num [solucionGemelaA, solucionGemelaB]
  rw [seleccionarTop]
  norm_num [round6, solucionGemelaA, solucionGemelaB]
  rw [seleccionarTop]

/-! ## Claims -/

/-- Claim C1, as stated, is false on the code: the fitness evaluator never
compares any time quantity against a time budget.  Here the single returned
plan assigns `problemaLargo` (300-minute limit) to `participanteVeloz` (speed
factor 2); its estimated solve time — hence its per-agent parallel time — is
600 minutes, exceeding the 300-minute default budget of
`ConfiguracionCompetencia.tiempo_total_minutos`, yet the individual is valid
with positive fitness and is contained in the returned plans. -/
theorem C1_contraejemplo :
    (evaluarIndividuo sqrtCero [[1]] [problemaLargo] [participanteVeloz] none none).es_valido
        = true
    ∧ (evaluarIndividuo sqrtCero [[1]] [problemaLargo] [participanteVeloz] none none).fitness
        = 13/25
    ∧ ¬((evaluarIndividuo sqrtCero [[1]] [problemaLargo] [participanteVeloz] none none).fitness
        = 0)
    ∧ tiempoParaleloSpec (extraerAsignacionesValidas [[1]] [problemaLargo] [participanteVeloz])
        = 600
    ∧ ¬(tiempoParaleloSpec (extraerAsignacionesValidas [[1]] [problemaLargo] [participanteVeloz])
        ≤ 300)
    ∧ planesDevueltos (actualizarTopSoluciones [solucionLarga] []) [problemaLargo]
        [participanteVeloz] = [solucionLarga]
    ∧ solucionLarga.es_valido = true := by
  refine ⟨?_, ?_, ?_, ?_, ?_, planLarga, rfl⟩
  · rw [evalLarga]
  · rw [evalLarga]
  · rw [evalLarga]; norm_num
  · rw [extraerLarga]; exact tparLarga
  · rw [extraerLarga, tparLarga]; norm_num

/-- Claim C1 (amended): the evaluator applies no time-budget constraint at
all.  An individual evaluated without internal errors is valid exactly when
its extracted assignment list is non-empty — independently of any time
quantity — and an invalid individual has fitness exactly 0. -/
theorem C1_teorema (sqrtQ : ℚ → ℚ) (m : Matriz) (problemas : List Problema)
    (participantes : List Participante) :
    ((evaluarIndividuo sqrtQ m problemas participantes none none).es_valido = true
      ↔ extraerAsignacionesValidas m problemas participantes ≠ [])
    ∧ ((evaluarIndividuo sqrtQ m problemas participantes none none).es_valido = false
        → (evaluarIndividuo sqrtQ m problemas participantes none none).fitness = 0) := by
  rw [evaluarIndividuo]
  cases h : extraerAsignacionesValidas m problemas participantes with
  | nil => simp [h]
  | cons a l =>
    rw [filtrar_cons_nil]
    cases h2 : filtrarPrimeroPor (fun x => x.problema_idx)
        (a :: filtrarPrimeroPor (fun x => x.participante_idx) l [a.participante_idx]) [] with
    | nil => rw [filtrar_cons_nil] at h2; exact absurd h2 (by simp)
    | cons b l2 => simp [h2]

/-- Witness for C1 (amended) at a concrete input with no assignment. -/
theorem C1_testigo : (evaluarIndividuo sqrtCero [[0]] [] [] none none).fitness = 0 :=
  (C1_teorema sqrtCero [[0]] [] []).2 rfl

/-- Claim C2: in every plan produced by `_generar_asignaciones_detalle`, each
task index and each agent index appears in at most one assignment. -/
theorem C2_teorema (m : Matriz) (problemas : List Problema)
    (participantes : List Participante) :
    (generarAsignacionesDetalle m problemas participantes).Pairwise
      (fun a b => a.problema_idx ≠ b.problema_idx
        ∧ a.participante_idx ≠ b.participante_idx) := by
  rw [generarAsignacionesDetalle]
  exact detalleBucle_pairwise m problemas participantes _ [] []

/-- Claim C3, as stated, is false on the code: `_actualizar_top_soluciones`
never checks validity, so an invalid solution (here `solucionInvalida`,
fitness 0, validity false) is admitted to the returned top solutions next to a
valid one, and survives into the returned plans. -/
theorem C3_contraejemplo :
    planesDevueltos (actualizarTopSoluciones [solucionValida, solucionInvalida] [])
        [problemaLargo] [participanteVeloz]
      = [solucionValida, solucionInvalida]
    ∧ solucionInvalida.es_valido = false
    ∧ solucionValida.es_valido = true := by
  refine ⟨?_, rfl, rfl⟩
  rw [topInvalida]
  rw [planesDevueltos]
  simp +decide [generarAsignacionesDetalle, indicesMatriz, detalleBucle, filasDe, colsDe, celda,
    solucionValida, solucionInvalida]

/-- Claim C3 (amended): every fitness value written by the evaluator lies in
`[0, 1]`, and the top-solutions filter only returns members of its candidate
pool, so all returned plans keep fitness in `[0, 1]`; the validity flag,
however, is not guaranteed. -/
theorem C3_teorema (sqrtQ : ℚ → ℚ) (m : Matriz) (problemas : List Problema)
    (participantes : List Participante) (i o : Option String)
    (poblacion top : List Sol)
    (h : ∀ s ∈ poblacion ++ top, 0 ≤ s.fitness ∧ s.fitness ≤ 1) :
    (0 ≤ (evaluarIndividuo sqrtQ m problemas participantes i o).fitness
      ∧ (evaluarIndividuo sqrtQ m problemas participantes i o).fitness ≤ 1)
    ∧ ∀ s ∈ actualizarTopSoluciones poblacion top, 0 ≤ s.fitness ∧ s.fitness ≤ 1 := by
  refine ⟨eval_fitness_rango sqrtQ m problemas participantes i o, ?_⟩
  intro s hs
  rw [actualizarTopSoluciones] at hs
  rcases mem_seleccionarTop _ _ _ _ s hs with hmem | hmem
  · simp at hmem
  · exact h s (mem_ordenarPorFitnessDesc.mp hmem)

/-- Witness for C3 (amended) at a concrete population. -/
theorem C3_testigo :
    0 ≤ (evaluarIndividuo sqrtCero [[1]] [] [] none none).fitness
    ∧ ∀ s ∈ actualizarTopSoluciones [solucionValida] [], 0 ≤ s.fitness ∧ s.fitness ≤ 1 := by
  have h := C3_teorema sqrtCero [[1]] [] [] none none [solucionValida] []
    (by intro s hs
        simp at hs
        subst hs
        constructor <;> norm_num [solucionValida])
  exact ⟨h.1.1, h.2⟩

/-- Claim C4, as stated, is false on the code: two solutions whose matrices
differ in a single priority digit — Hamming similarity 0.75 > 0.1 and zero
differing (task, agent) pairs — are both admitted, because the filter only
requires a new matrix and a new rounded fitness (or fitness above 0.8). -/
theorem C4_contraejemplo :
    actualizarTopSoluciones [solucionGemelaA, solucionGemelaB] []
      = [solucionGemelaA, solucionGemelaB]
    ∧ similitudHammingSpec solucionGemelaA.cromosoma solucionGemelaB.cromosoma = 3/4
    ∧ ¬(similitudHammingSpec solucionGemelaA.cromosoma solucionGemelaB.cromosoma ≤ 1/10)
    ∧ paresDiferentesSpec solucionGemelaA.cromosoma solucionGemelaB.cromosoma = 0
    ∧ ¬(2 ≤ paresDiferentesSpec solucionGemelaA.cromosoma solucionGemelaB.cromosoma) := by
  have hsim : similitudHammingSpec solucionGemelaA.cromosoma solucionGemelaB.cromosoma
      = 3/4 := by
    rw [similitudHammingSpec]
    rw [show filasDe solucionGemelaA.cromosoma * colsDe solucionGemelaA.cromosoma = 4 from
      by decide]
    rw [if_neg (by norm_num)]
    rw [show ((indicesMatriz solucionGemelaA.cromosoma).filter fun p =>
        celda solucionGemelaA.cromosoma p.1 p.2 = celda solucionGemelaB.cromosoma p.1 p.2)
      = [(0, 0), (0, 1), (1, 0)] from by decide]
    norm_num
  have hpar : paresDiferentesSpec solucionGemelaA.cromosoma solucionGemelaB.cromosoma = 0 := by
    decide
  refine ⟨topGemelas, hsim, ?_, hpar, ?_⟩
  · rw [hsim]; norm_num
  · rw [hpar]; norm_num

/-- Claim C4 (amended): the top-solutions filter returns at most three
solutions and their chromosome matrices are pairwise distinct (exact matrix
inequality — the only dissimilarity the code enforces). -/
theorem C4_teorema (poblacion top : List Sol) :
    (actualizarTopSoluciones poblacion top).length ≤ 3
    ∧ (actualizarTopSoluciones poblacion top).Pairwise
        (fun a b => a.cromosoma ≠ b.cromosoma) := by
  rw [actualizarTopSoluciones]
  exact ⟨seleccionarTop_longitud _ _ _ _ (by simp),
    seleccionarTop_cromosomas_distintos _ _ _ _ (by simp) (by simp)⟩

/-- Claim C5: an exception signalled during one individual's evaluation —
whether inside the component-calculation block or anywhere in the body — makes
that individual's fitness exactly 0 and its validity flag false; the embedded
evaluator is a total function, so the failure never escapes the evolution
loop. -/
theorem C5_teorema (sqrtQ : ℚ → ℚ) (m : Matriz) (problemas : List Problema)
    (participantes : List Participante) (excInterna : Option String) (e : String) :
    evaluarIndividuo sqrtQ m problemas participantes excInterna (some e) = ⟨0, false⟩
    ∧ evaluarIndividuo sqrtQ m problemas participantes (some e) none = ⟨0, false⟩ := by
  refine ⟨rfl, ?_⟩
  rw [evaluarIndividuo]
  repeat' split
  all_goals simp_all

/-- Claim C6, as stated, is false on the code: the success probability is
clamped to `[0.1, 0.95]` (not `[0.1, 0.9]`) — a 0.9-rate participant on an
easy task gets 0.95 — and the difficulty factors are 1.3 / 1.2 / 1.0 / 0.8 /
0.6, not 1.2 / 1.1 / 1.0 / 0.9 / 0.8. -/
theorem C6_contraejemplo :
    calcularProbabilidadExitoSegura participanteFuerte problemaFacil = 19/20
    ∧ ¬(calcularProbabilidadExitoSegura participanteFuerte problemaFacil ≤ 9/10)
    ∧ factorDificultad (normalizarDificultad "facil") ≠ 11/10
    ∧ factorDificultad (normalizarDificultad "muy_facil") ≠ 12/10
    ∧ factorDificultad (normalizarDificultad "dificil") ≠ 9/10
    ∧ factorDificultad (normalizarDificultad "muy_dificil") ≠ 8/10 := by
  refine ⟨probFuerteFacil, ?_, ?_, ?_, ?_, ?_⟩
  · rw [probFuerteFacil]; norm_num
  all_goals
    simp +decide [show normalizarDificultad "facil" = "facil" from by decide,
      show normalizarDificultad "muy_facil" = "muy_facil" from by decide,
      show normalizarDificultad "dificil" = "dificil" from by decide,
      show normalizarDificultad "muy_dificil" = "muy_dificil" from by decide,
      factorDificultad]
    norm_num

/-- Claim C6 (amended): without a custom probability method the success
probability lies in `[0.1, 0.95]`, and the difficulty factors are 1.3 for
very-easy, 1.2 for easy, 1.0 for medium, 0.8 for hard and 0.6 for
very-hard. -/
theorem C6_teorema (p : Participante) (prob : Problema) (h : p.customProb = none) :
    1/10 ≤ calcularProbabilidadExitoSegura p prob
    ∧ calcularProbabilidadExitoSegura p prob ≤ 19/20
    ∧ factorDificultad "muy_facil" = 13/10 ∧ factorDificultad "facil" = 6/5
    ∧ factorDificultad "medio" = 1 ∧ factorDificultad "dificil" = 4/5
    ∧ factorDificultad "muy_dificil" = 3/5 := by
  rw [calcularProbabilidadExitoSegura, h]
  refine ⟨?_, ?_, ?_, ?_, ?_, ?_, ?_⟩
  · exact le_trans (show (1/10:ℚ) ≤ 0.1 by norm_num) (le_max_left _ _)
  · exact max_le (by norm_num) (le_trans (min_le_left _ _) (by norm_num))
  all_goals simp +decide [factorDificultad]
  all_goals norm_num

/-- Witness for C6 (amended) at a concrete participant and problem. -/
theorem C6_testigo : 1/10 ≤ calcularProbabilidadExitoSegura participanteFuerte problemaFacil :=
  (C6_teorema participanteFuerte problemaFacil rfl).1

/-- Claim C7, as stated, is false on the code: there is no clamp to
`[0.2·limit, 0.8·limit]`.  With a 100-minute limit and a participant with
default speed and experience, the estimate is the full 100 minutes, above
`0.8 · 100 = 80`. -/
theorem C7_contraejemplo :
    estimarTiempoSeguro participanteBasico problemaCien = 100
    ∧ ¬(((estimarTiempoSeguro participanteBasico problemaCien : ℚ)) ≤ (8/10) * 100) := by
  constructor
  · exact tiempoCienBasico
  · rw [tiempoCienBasico]; norm_num

/-- Claim C7 (amended): without a custom time method the estimated solve time
is `max(30, int(base · velocidad · experiencia))` with `base ∈ [30, 300]`,
`velocidad ∈ [0.5, 2]` and `experiencia ∈ [0.7, 1]`, hence always in
`[30, 600]` minutes. -/
theorem C7_teorema (p : Participante) (prob : Problema) (h : p.customTiempo = none) :
    30 ≤ estimarTiempoSeguro p prob ∧ estimarTiempoSeguro p prob ≤ 600 := by
  rw [estimarTiempoSeguro, h]
  rw [estimarTiempoFallback]
  refine ⟨le_max_left _ _, max_le (by norm_num) ?_⟩
  have h600 : (600 : ℤ) = ⌊(600 : ℚ)⌋ := by norm_num
  rw [h600]
  apply Int.floor_le_floor
  have htb1 : ((max 30 (min 300 ⌊tiempoBaseCrudo prob⌋) : ℤ) : ℚ) ≤ 300 := by
    have hz : (max 30 (min 300 ⌊tiempoBaseCrudo prob⌋) : ℤ) ≤ 300 :=
      max_le (by norm_num) (min_le_left _ _)
    exact_mod_cast hz
  have htb0 : (0:ℚ) ≤ ((max 30 (min 300 ⌊tiempoBaseCrudo prob⌋) : ℤ) : ℚ) := by
    have hz : (0:ℤ) ≤ max 30 (min 300 ⌊tiempoBaseCrudo prob⌋) :=
      le_trans (by norm_num) (le_max_left _ _)
    exact_mod_cast hz
  have hfv1 : max (0.5:ℚ) (min 2.0 (factorVelocidadCrudo p)) ≤ 2 :=
    max_le (by norm_num) (le_trans (min_le_left _ _) (by norm_num))
  have hfv0 : (0:ℚ) ≤ max (0.5:ℚ) (min 2.0 (factorVelocidadCrudo p)) :=
    le_trans (by norm_num) (le_max_left _ _)
  have hfe1 : max (0.7:ℚ) (1 - experienciaCruda p / 50) ≤ 1 := by
    apply max_le (by norm_num)
    have hnn := experienciaCruda_nonneg p
    linarith
  have hfe0 : (0:ℚ) ≤ max (0.7:ℚ) (1 - experienciaCruda p / 50) :=
    le_trans (by norm_num) (le_max_left _ _)
  calc ((max 30 (min 300 ⌊tiempoBaseCrudo prob⌋) : ℤ) : ℚ)
        * (max 0.5 (min 2.0 (factorVelocidadCrudo p)))
        * (max 0.7 (1 - experienciaCruda p / 50))
      ≤ 300 * 2 * 1 := by
        apply mul_le_mul _ hfe1 hfe0 (by positivity)
        exact mul_le_mul htb1 hfv1 hfv0 (by norm_num)
    _ = 600 := by norm_num

/-- Witness for C7 (amended) at a concrete participant and problem. -/
theorem C7_testigo : 30 ≤ estimarTiempoSeguro participanteBasico problemaCien :=
  (C7_teorema participanteBasico problemaCien rfl).1

/-- Claim C8: the evolution loop runs at most `gmax` generations; when it
stops early, the stop happens exactly at the first generation after which
either the best fitness failed to improve by more than `10⁻⁵` for 30
consecutive generations or the best fitness reached 0.98. -/
theorem C8_teorema (mejores : ℕ → ℚ) (prev0 : ℚ) (gmax : ℕ) :
    (ejecutarBucle mejores prev0 0 0 gmax).1 ≤ gmax
    ∧ ((ejecutarBucle mejores prev0 0 0 gmax).1 < gmax →
        condicionParada mejores prev0 ((ejecutarBucle mejores prev0 0 0 gmax).1 - 1) = true
        ∧ ∀ k, k < (ejecutarBucle mejores prev0 0 0 gmax).1 - 1 →
            condicionParada mejores prev0 k = false) := by
  constructor
  · have hb := ejecutarBucle_cota mejores gmax 0 prev0 0
    omega
  · intro hlt
    have hc := ejecutarBucle_caracterizacion mejores prev0 gmax 0
    have he1 : (estadoTras mejores prev0 0).1 = prev0 := rfl
    have he2 : (estadoTras mejores prev0 0).2 = 0 := rfl
    rw [he1, he2] at hc
    have hr := hc (by omega)
    exact ⟨hr.1, fun k hk => hr.2 k (by omega) hk⟩

/-- Witness for C8 at a trajectory that reaches fitness 1 at once: the loop
stops after one generation, and the stop condition holds there. -/
theorem C8_testigo :
    (ejecutarBucle mejoresUno 0 0 0 5).1 < 5
    ∧ condicionParada mejoresUno 0 ((ejecutarBucle mejoresUno 0 0 0 5).1 - 1) = true := by
  have h1 : (ejecutarBucle mejoresUno 0 0 0 5).1 = 1 := by
    have hcond : (30 ≤ (pasoGeneracion (mejoresUno 0) 0 0).2
        ∨ 98 / 100 ≤ (pasoGeneracion (mejoresUno 0) 0 0).1) := by
      right
      norm_num [pasoGeneracion, mejoresUno]
    rw [ejecutarBucle, if_pos hcond]
  refine ⟨by omega, ?_⟩
  exact ((C8_teorema mejoresUno 0 5).2 (by omega)).1

/-- Claim C9: when every individual of the evaluated initial population is
invalid, the optimization aborts with the distinct no-feasible-start message
and returns no plans. -/
theorem C9_teorema (poblacion : List Sol) (h : ∀ s ∈ poblacion, s.es_valido = false) :
    iniciarOptimizacion poblacion = .error mensajeSinInicioFactible
    ∧ ∀ planes, iniciarOptimizacion poblacion ≠ .ok planes := by
  have hf : poblacion.filter (·.es_valido) = [] := by
    rw [List.filter_eq_nil_iff]
    intro a ha
    simp [h a ha]
  rw [iniciarOptimizacion]
  simp [hf]

/-- Witness for C9 at a concrete all-invalid population. -/
theorem C9_testigo : iniciarOptimizacion poblacionInvalida = .error mensajeSinInicioFactible :=
  (C9_teorema poblacionInvalida (by decide)).1

/-- Claim C10: for every participant and problem — arbitrary attribute tables
covering missing, malformed and `NaN` fields — the compatibility computation
is total with value in `[0, 1]`, and without a custom compatibility method the
value lies in `[0.1, 0.95]`. -/
theorem C10_teorema (p : Participante) :
    0 ≤ calcularCompatibilidadSegura p ∧ calcularCompatibilidadSegura p ≤ 1
    ∧ (p.customCompat = none →
        1/10 ≤ calcularCompatibilidadSegura p ∧ calcularCompatibilidadSegura p ≤ 19/20) := by
  rw [calcularCompatibilidadSegura]
  cases hrc : resolverCustom p.customCompat (fun r => decide (0 ≤ r ∧ r ≤ 1)) with
  | some r =>
    have hok := resolverCustom_some hrc
    have hr : 0 ≤ r ∧ r ≤ 1 := by simpa using hok
    refine ⟨hr.1, hr.2, ?_⟩
    intro hnone
    rw [hnone] at hrc
    simp [resolverCustom] at hrc
  | none =>
    refine ⟨?_, ?_, fun _ => ⟨?_, ?_⟩⟩
    · exact le_trans (show (0:ℚ) ≤ 0.1 by norm_num) (le_max_left _ _)
    · exact max_le (by norm_num) (le_trans (min_le_left _ _) (by norm_num))
    · exact le_trans (show (1/10:ℚ) ≤ 0.1 by norm_num) (le_max_left _ _)
    · exact max_le (by norm_num) (le_trans (min_le_left _ _) (by norm_num))

/-- Witness for C10 at a participant with no attributes. -/
theorem C10_testigo : 1/10 ≤ calcularCompatibilidadSegura participanteBasico :=
  ((C10_teorema participanteBasico).2.2 rfl).1

end Coderush
